import Mathlib

/-!
Shallow embedding of the Windows video player session controller
(`packages/video_player/video_player_windows/windows/video_player.cpp`).

The `VideoPlayer` class mediates between the Flutter host and a
`MediaEngineWrapper`.  We embed the player's observable state
(`PlayerState`), the state of the media engine it owns (`EngineState`,
modelled from the spec since the wrapper's implementation is outside the
sources), each callback/handler as a pure function returning the new
state together with the list of events pushed to the event sink, and a
trace semantics (`step` / `run`) over sequences of engine callbacks and
host actions.
-/

/-- Buffering states reported by the media engine wrapper.  Only
`HAVE_NOTHING` ("no data available") is distinguished by the player:
every other state is treated as a ready signal. -/
inductive BufferingState
  | HAVE_NOTHING
  | HAVE_ENOUGH
deriving DecidableEq, Repr

/-- Structured events pushed to the Flutter event sink, keyed by the
`event` discriminator field of the encodable map built in the C++ code. -/
inductive Event
  | initialized (duration : Int) (width : Int) (height : Int)
  | completed
  | bufferingStart
  | bufferingEnd
  | bufferingUpdate (values : List (Int × Int))
deriving DecidableEq, Repr

/-- The C++ `static_cast<uint32_t>` applied to a nonnegative quantity
(`size_t` widths/heights). -/
def asUInt32 (n : Nat) : Nat := n % 2 ^ 32

/-- The C++ `static_cast<uint32_t>` applied to an `Int`-valued quantity.
Negative inputs are undefined behaviour in C++; we model them as the
two's-complement wraparound. -/
def intAsUInt32 (x : Int) : Nat := (x % 2 ^ 32).toNat

/-- The C++ `(int32_t)` cast applied to a `uint32_t` value, as used on the
native video size in `SendInitialized`. -/
def toInt32 (n : Nat) : Int :=
  if n % 2 ^ 32 < 2 ^ 31 then ((n % 2 ^ 32 : Nat) : Int)
  else ((n % 2 ^ 32 : Nat) : Int) - 2 ^ 32

/-- A Win32 `RECT` as produced by `GetWindowRect`. -/
structure WinRect where
  left : Int
  top : Int
  right : Int
  bottom : Int
deriving DecidableEq, Repr

/-- Modelled from the spec: the state of the Engine Adapter
(`MediaEngineWrapper`, whose implementation is outside the given
sources).  It is treated as a test double: `mediaTime` holds the last
seek target and is returned by `GetMediaTime`; `duration`, the native
video size and the buffered ranges are the values its query operations
report; `windowUpdateArgs` records the arguments of the last
window-update/resize call; `paused` records whether `Pause` ran. -/
structure EngineState where
  mediaTime : Int
  duration : Int
  nativeWidth : Nat
  nativeHeight : Nat
  bufferedRanges : List (Int × Int)
  windowUpdateArgs : Option (Nat × Nat)
  paused : Bool
deriving DecidableEq, Repr

namespace EngineState

/-- Modelled from the spec: `MediaEngineWrapper::SeekTo` — the engine is
a test double whose media time becomes the seek target. -/
def SeekTo (e : EngineState) (t : Int) : EngineState := { e with mediaTime := t }

/-- Modelled from the spec: `MediaEngineWrapper::GetMediaTime` returns
the last seek target. -/
def GetMediaTime (e : EngineState) : Int := e.mediaTime

/-- Modelled from the spec: `MediaEngineWrapper::Pause`. -/
def Pause (e : EngineState) : EngineState := { e with paused := true }

/-- Modelled from the spec: `MediaEngineWrapper::OnWindowUpdate`, the
engine's window-update/resize operation; we record its arguments. -/
def OnWindowUpdate (e : EngineState) (w h : Nat) : EngineState :=
  { e with windowUpdateArgs := some (w, h) }

/-- Modelled from the spec: `MediaEngineWrapper::GetBufferedRanges`
returns one `(startMillis, endMillis)` pair per contiguous buffered
range, in the engine's reported order. -/
def GetBufferedRanges (e : EngineState) : List (Int × Int) := e.bufferedRanges

end EngineState

/-- The observable per-session state of `VideoPlayer`:
* `m_valid` — the validity flag, `true` from construction until the
  destructor runs;
* `isInitialized` — the initialized flag;
* `eventSink` — whether an event sink is currently attached
  (`_eventSink` non-null);
* `eventChannel` — whether the event channel is still alive
  (`_eventChannel` non-null, cleared by `Dispose`);
* `m_windowSize` — last stored window size (zero-initialized);
* `m_descriptor` — the dimensions the surface descriptor was last sized
  to (modelled from the spec: `UpdateSurfaceDescriptor` produces a
  descriptor sized to the requested width/height). -/
structure PlayerState where
  m_valid : Bool
  isInitialized : Bool
  eventSink : Bool
  eventChannel : Bool
  m_windowSize : Int × Int
  m_descriptor : Nat × Nat
deriving DecidableEq, Repr

/-- The state of a freshly constructed player after `Init`: valid, not
initialized, no sink attached yet, event channel installed, window size
zero-initialized. -/
def initPlayer : PlayerState :=
  { m_valid := true
    isInitialized := false
    eventSink := false
    eventChannel := true
    m_windowSize := (0, 0)
    m_descriptor := (0, 0) }

namespace VideoPlayer

/-- Embedding of `VideoPlayer::~VideoPlayer`, which clears the validity
flag. -/
def destruct (s : PlayerState) : PlayerState := { s with m_valid := false }

/-- Embedding of `VideoPlayer::IsValid`. -/
def IsValid (s : PlayerState) : Bool := s.m_valid

/-- Embedding of `VideoPlayer::SetBuffering`: emits `bufferingStart` or
`bufferingEnd` if an event sink is attached; no player state changes. -/
def SetBuffering (s : PlayerState) (buffering : Bool) : List Event :=
  if s.eventSink then
    [if buffering then Event.bufferingStart else Event.bufferingEnd]
  else []

/-- Embedding of `VideoPlayer::SendInitialized`: when the initialized
flag is set, builds the `initialized` event from the engine's duration
and native video size (with the C++ `(int32_t)` casts) and emits it if a
sink is attached. -/
def SendInitialized (s : PlayerState) (e : EngineState) : List Event :=
  if s.isInitialized then
    if s.eventSink then
      [Event.initialized e.duration (toInt32 e.nativeWidth) (toInt32 e.nativeHeight)]
    else []
  else []

/-- Embedding of `VideoPlayer::SendBufferingUpdate`: builds one
`(start, end)` pair per buffered range reported by the engine, in order,
and emits the `bufferingUpdate` event if a sink is attached. -/
def SendBufferingUpdate (s : PlayerState) (e : EngineState) : List Event :=
  let values := e.GetBufferedRanges
  if s.eventSink then [Event.bufferingUpdate values] else []

/-- Embedding of `VideoPlayer::OnMediaInitialized`: unconditionally
seeks the engine to 0, then, if the initialized flag is not yet set,
sets it and sends the `initialized` event. -/
def OnMediaInitialized (s : PlayerState) (e : EngineState) :
    (PlayerState × EngineState) × List Event :=
  let e1 := e.SeekTo 0
  if !s.isInitialized then
    let s1 := { s with isInitialized := true }
    ((s1, e1), SendInitialized s1 e1)
  else ((s, e1), [])

/-- Embedding of `VideoPlayer::OnMediaStateChange`: on `HAVE_NOTHING`,
emits `bufferingStart` then a `bufferingUpdate`; otherwise first sets
the initialized flag and sends `initialized` if not yet initialized,
then emits `bufferingEnd`. -/
def OnMediaStateChange (s : PlayerState) (e : EngineState)
    (bufferingState : BufferingState) : PlayerState × List Event :=
  if bufferingState = BufferingState.HAVE_NOTHING then
    (s, SetBuffering s true ++ SendBufferingUpdate s e)
  else
    let s1 := if !s.isInitialized then { s with isInitialized := true } else s
    let evInit := if !s.isInitialized then SendInitialized s1 e else []
    (s1, evInit ++ SetBuffering s1 false)

/-- Embedding of `VideoPlayer::OnPlaybackEnded`: emits `completed` if a
sink is attached. -/
def OnPlaybackEnded (s : PlayerState) : List Event :=
  if s.eventSink then [Event.completed] else []

/-- Embedding of `VideoPlayer::UpdateVideoSize`: if the window rectangle
is readable (`rect? = some r`), stores its width/height into
`m_windowSize`; then calls the engine's window-update with the stored
size, or with the (640, 480) default when either stored component is
zero. -/
def UpdateVideoSize (s : PlayerState) (e : EngineState)
    (rect? : Option WinRect) : PlayerState × EngineState :=
  let ws : Int × Int :=
    match rect? with
    | some r => (r.right - r.left, r.bottom - r.top)
    | none => s.m_windowSize
  let windowInitialized : Bool := ws.1 != 0 && ws.2 != 0
  let width : Int := if windowInitialized then ws.1 else 640
  let height : Int := if windowInitialized then ws.2 else 480
  ({ s with m_windowSize := ws },
   e.OnWindowUpdate (intAsUInt32 width) (intAsUInt32 height))

/-- Embedding of `VideoPlayer::ObtainDescriptorCallback`: under the
buffer lock, sizes the surface descriptor to the requested dimensions
(modelled from the spec: `UpdateSurfaceDescriptor` is engine code
producing a descriptor of the requested size) and then runs
`UpdateVideoSize`. -/
def ObtainDescriptorCallback (s : PlayerState) (e : EngineState)
    (width height : Nat) (rect? : Option WinRect) : PlayerState × EngineState :=
  let s1 := { s with m_descriptor := (asUInt32 width, asUInt32 height) }
  UpdateVideoSize s1 e rect?

/-- Embedding of `VideoPlayer::Dispose`: pauses the engine if the
session is initialized and releases the event channel.  The validity
flag and the event sink are untouched. -/
def Dispose (s : PlayerState) (e : EngineState) : PlayerState × EngineState :=
  let e1 := if s.isInitialized then e.Pause else e
  ({ s with eventChannel := false }, e1)

/-- Embedding of `VideoPlayer::SeekTo`: direct pass-through to the
engine. -/
def SeekTo (e : EngineState) (seek : Int) : EngineState := e.SeekTo seek

/-- Embedding of `VideoPlayer::GetPosition`: direct pass-through to the
engine's `GetMediaTime`. -/
def GetPosition (e : EngineState) : Int := e.GetMediaTime

end VideoPlayer

/-- One external stimulus applied to a session: an engine callback
(`cbInitialized`, `cbError`, `cbStateChange`, `cbPlaybackEnded`), a
listen/cancel on the event channel's stream handler, a `Dispose` call,
or a frame request from the host renderer (carrying the requested buffer
size and the window rectangle `GetWindowRect` would report). -/
inductive SessionAction
  | cbInitialized
  | cbError
  | cbStateChange (bufferingState : BufferingState)
  | cbPlaybackEnded
  | listen
  | cancel
  | dispose
  | frameRequest (width height : Nat) (rect? : Option WinRect)
deriving DecidableEq, Repr

/-- Small-step semantics: apply one action to a player/engine pair,
returning the new pair and the events emitted during that step. -/
def step (s : PlayerState × EngineState) (a : SessionAction) :
    (PlayerState × EngineState) × List Event :=
  match a with
  | .cbInitialized => VideoPlayer.OnMediaInitialized s.1 s.2
  | .cbError => (s, [])
  | .cbStateChange bs =>
      (((VideoPlayer.OnMediaStateChange s.1 s.2 bs).1, s.2),
       (VideoPlayer.OnMediaStateChange s.1 s.2 bs).2)
  | .cbPlaybackEnded => (s, VideoPlayer.OnPlaybackEnded s.1)
  | .listen => (({ s.1 with eventSink := true }, s.2), [])
  | .cancel => (({ s.1 with eventSink := false }, s.2), [])
  | .dispose => (VideoPlayer.Dispose s.1 s.2, [])
  | .frameRequest w h r => (VideoPlayer.ObtainDescriptorCallback s.1 s.2 w h r, [])

/-- Run a sequence of actions from a starting state, collecting all
emitted events in order. -/
def run (s : PlayerState × EngineState) :
    List SessionAction → (PlayerState × EngineState) × List Event
  | [] => (s, [])
  | a :: rest =>
      ((run (step s a).1 rest).1, (step s a).2 ++ (run (step s a).1 rest).2)

/-- Recognizer for `initialized` events. -/
def isInitEvent : Event → Bool
  | .initialized _ _ _ => true
  | _ => false

/-- Number of `initialized` events in an event list. -/
def countInit (evs : List Event) : Nat := (evs.filter isInitEvent).length

/-- An action is a ready signal when it is the dedicated initialization
callback or a buffering-state callback with a non-`HAVE_NOTHING`
state. -/
def readySignal : SessionAction → Bool
  | SessionAction.cbInitialized => true
  | SessionAction.cbStateChange BufferingState.HAVE_NOTHING => false
  | SessionAction.cbStateChange _ => true
  | _ => false

/-- A concrete engine double used for witnesses and counterexamples. -/
def eng0 : EngineState :=
  { mediaTime := 0
    duration := 5000
    nativeWidth := 1280
    nativeHeight := 720
    bufferedRanges := [(0, 1000)]
    windowUpdateArgs := none
    paused := false }

/-! Helper lemmas about the trace semantics. -/

theorem countInit_append (a b : List Event) :
    countInit (a ++ b) = countInit a + countInit b := by
  simp [countInit, List.filter_append]

theorem step_isInit_mono (s : PlayerState × EngineState) (a : SessionAction)
    (h : s.1.isInitialized = true) : ((step s a).1).1.isInitialized = true := by
  cases a with
  | cbInitialized => simp [step, VideoPlayer.OnMediaInitialized, h]
  | cbError => simpa [step] using h
  | cbStateChange bs =>
      cases bs <;>
        simp [step, VideoPlayer.OnMediaStateChange, h]
  | cbPlaybackEnded => simpa [step] using h
  | listen => simpa [step] using h
  | cancel => simpa [step] using h
  | dispose => simp [step, VideoPlayer.Dispose, h]
  | frameRequest w hh r =>
      simp [step, VideoPlayer.ObtainDescriptorCallback, VideoPlayer.UpdateVideoSize, h]

theorem step_countInit_zero_of_init (s : PlayerState × EngineState) (a : SessionAction)
    (h : s.1.isInitialized = true) : countInit (step s a).2 = 0 := by
  cases a with
  | cbInitialized => simp [step, VideoPlayer.OnMediaInitialized, h, countInit]
  | cbError => simp [step, countInit]
  | cbStateChange bs =>
      cases bs <;>
        cases hS : s.1.eventSink <;>
          simp [step, VideoPlayer.OnMediaStateChange, VideoPlayer.SetBuffering,
            VideoPlayer.SendBufferingUpdate, h, hS, countInit, isInitEvent]
  | cbPlaybackEnded =>
      cases hS : s.1.eventSink <;>
        simp [step, VideoPlayer.OnPlaybackEnded, hS, countInit, isInitEvent]
  | listen => simp [step, countInit]
  | cancel => simp [step, countInit]
  | dispose => simp [step, countInit]
  | frameRequest w hh r => simp [step, countInit]

theorem step_countInit_le_one (s : PlayerState × EngineState) (a : SessionAction) :
    countInit (step s a).2 ≤ 1 := by
  cases a with
  | cbInitialized =>
      cases hI : s.1.isInitialized <;> cases hS : s.1.eventSink <;>
        simp [step, VideoPlayer.OnMediaInitialized, VideoPlayer.SendInitialized,
          hI, hS, countInit, isInitEvent]
  | cbError => simp [step, countInit]
  | cbStateChange bs =>
      cases bs <;> cases hI : s.1.isInitialized <;> cases hS : s.1.eventSink <;>
        simp [step, VideoPlayer.OnMediaStateChange, VideoPlayer.SetBuffering,
          VideoPlayer.SendBufferingUpdate, VideoPlayer.SendInitialized,
          hI, hS, countInit, isInitEvent]
  | cbPlaybackEnded =>
      cases hS : s.1.eventSink <;>
        simp [step, VideoPlayer.OnPlaybackEnded, hS, countInit, isInitEvent]
  | listen => simp [step, countInit]
  | cancel => simp [step, countInit]
  | dispose => simp [step, countInit]
  | frameRequest w hh r => simp [step, countInit]

theorem step_flip (s : PlayerState × EngineState) (a : SessionAction)
    (h : 1 ≤ countInit (step s a).2) :
    s.1.isInitialized = false ∧ ((step s a).1).1.isInitialized = true := by
  cases hI : s.1.isInitialized with
  | true =>
      have := step_countInit_zero_of_init s a hI
      omega
  | false =>
      refine ⟨rfl, ?_⟩
      cases a with
      | cbInitialized => simp [step, VideoPlayer.OnMediaInitialized, hI]
      | cbError => simp [step, countInit] at h
      | cbStateChange bs =>
          cases bs with
          | HAVE_NOTHING =>
              cases hS : s.1.eventSink <;>
                simp [step, VideoPlayer.OnMediaStateChange, VideoPlayer.SetBuffering,
                  VideoPlayer.SendBufferingUpdate, hS, countInit, isInitEvent] at h
          | HAVE_ENOUGH =>
              simp [step, VideoPlayer.OnMediaStateChange, hI]
      | cbPlaybackEnded =>
          cases hS : s.1.eventSink <;>
            simp [step, VideoPlayer.OnPlaybackEnded, hS, countInit, isInitEvent] at h
      | listen => simp [step, countInit] at h
      | cancel => simp [step, countInit] at h
      | dispose => simp [step, countInit] at h
      | frameRequest w hh r => simp [step, countInit] at h

theorem step_no_readySignal (s : PlayerState × EngineState) (a : SessionAction)
    (hr : readySignal a = false) :
    ((step s a).1).1.isInitialized = s.1.isInitialized ∧ countInit (step s a).2 = 0 := by
  cases a with
  | cbInitialized => simp [readySignal] at hr
  | cbError => simp [step, countInit]
  | cbStateChange bs =>
      cases bs with
      | HAVE_NOTHING =>
          cases hS : s.1.eventSink <;>
            simp [step, VideoPlayer.OnMediaStateChange, VideoPlayer.SetBuffering,
              VideoPlayer.SendBufferingUpdate, hS, countInit, isInitEvent]
      | HAVE_ENOUGH => simp [readySignal] at hr
  | cbPlaybackEnded =>
      cases hS : s.1.eventSink <;>
        simp [step, VideoPlayer.OnPlaybackEnded, hS, countInit, isInitEvent]
  | listen => simp [step, countInit]
  | cancel => simp [step, countInit]
  | dispose => simp [step, VideoPlayer.Dispose, countInit]
  | frameRequest w hh r =>
      simp [step, VideoPlayer.ObtainDescriptorCallback, VideoPlayer.UpdateVideoSize, countInit]

theorem run_countInit_zero_of_init (acts : List SessionAction) :
    ∀ s : PlayerState × EngineState, s.1.isInitialized = true →
      countInit (run s acts).2 = 0 ∧ ((run s acts).1).1.isInitialized = true := by
  induction acts with
  | nil => intro s h; simpa [run, countInit] using h
  | cons a rest ih =>
      intro s h
      have h1 := step_isInit_mono s a h
      have h2 := step_countInit_zero_of_init s a h
      have h3 := ih (step s a).1 h1
      simp [run, countInit_append, h2, h3.1, h3.2]

theorem run_countInit_le_one (acts : List SessionAction) :
    ∀ s : PlayerState × EngineState, countInit (run s acts).2 ≤ 1 := by
  induction acts with
  | nil => intro s; simp [run, countInit]
  | cons a rest ih =>
      intro s
      have hle := step_countInit_le_one s a
      rcases Nat.eq_zero_or_pos (countInit (step s a).2) with h0 | h1
      · have := ih (step s a).1
        simp [run, countInit_append, h0]
        omega
      · have hflip := step_flip s a h1
        have hz := (run_countInit_zero_of_init rest (step s a).1 hflip.2).1
        simp [run, countInit_append, hz]
        omega

theorem run_no_readySignal (acts : List SessionAction) :
    ∀ s : PlayerState × EngineState, (∀ a ∈ acts, readySignal a = false) →
      countInit (run s acts).2 = 0 := by
  induction acts with
  | nil => intro s _; simp [run, countInit]
  | cons a rest ih =>
      intro s hall
      have hr := hall a (List.mem_cons_self a rest)
      have hstep := step_no_readySignal s a hr
      have hrest := ih (step s a).1 (fun b hb => hall b (List.mem_cons_of_mem a hb))
      simp [run, countInit_append, hstep.2, hrest]

/-! Claim theorems. -/

/-- C1: for every sequence of engine callbacks (and host actions) run
from a fresh session, the `initialized` event is emitted at most once;
the initialized flag is monotone (it transitions false→true at most
once); any step emitting an `initialized` event is exactly a step where
the flag flips from false to true; and a trace containing neither an
`onInitialized` callback nor a ready-signaling (non-`HAVE_NOTHING`)
buffering callback emits no `initialized` event. -/
theorem C1_initialized_at_most_once (acts : List SessionAction) (e0 : EngineState) :
    countInit (run (initPlayer, e0) acts).2 ≤ 1
    ∧ (∀ (s : PlayerState × EngineState) (a : SessionAction),
        s.1.isInitialized = true → ((step s a).1).1.isInitialized = true)
    ∧ (∀ (s : PlayerState × EngineState) (a : SessionAction),
        1 ≤ countInit (step s a).2 →
          s.1.isInitialized = false ∧ ((step s a).1).1.isInitialized = true)
    ∧ ((∀ a ∈ acts, readySignal a = false) →
        countInit (run (initPlayer, e0) acts).2 = 0) :=
  ⟨run_countInit_le_one acts _, step_isInit_mono, step_flip,
   fun hall => run_no_readySignal acts _ hall⟩

/-- Witness for C1: a trace with only a pre-init `HAVE_NOTHING` callback
emits no `initialized` event, and a dedicated initialization callback on
an attached, uninitialized session flips the flag. -/
theorem C1_witness :
    countInit (run (initPlayer, eng0)
        [SessionAction.listen, SessionAction.cbStateChange BufferingState.HAVE_NOTHING]).2 = 0
    ∧ ((step ({ initPlayer with eventSink := true }, eng0)
          SessionAction.cbInitialized).1).1.isInitialized = true :=
  ⟨(C1_initialized_at_most_once
      [SessionAction.listen, SessionAction.cbStateChange BufferingState.HAVE_NOTHING]
      eng0).2.2.2 (by decide),
   ((C1_initialized_at_most_once [] eng0).2.2.1
      ({ initPlayer with eventSink := true }, eng0)
      SessionAction.cbInitialized (by decide)).2⟩

/-- C2 counterexample: after `Dispose`, the validity flag is still
`true` (only the destructor clears it), and a playback-ended callback
arriving after `Dispose` still emits a `completed` event instead of
being dropped. -/
theorem C2_counterexample :
    ((run (initPlayer, eng0)
        [SessionAction.listen, SessionAction.dispose]).1).1.m_valid = true
    ∧ (run (initPlayer, eng0)
        [SessionAction.listen, SessionAction.dispose, SessionAction.cbPlaybackEnded]).2
      = [Event.completed] := by decide

/-- C2 amended: `Dispose` pauses the engine when initialized and
releases the event channel, but neither clears the validity flag nor
detaches the sink, and callbacks arriving afterwards are not checked
against the validity flag: a playback-ended callback after `Dispose`
still emits `completed` to an attached sink. -/
theorem C2_dispose_not_defensive (s : PlayerState) (e : EngineState)
    (hS : s.eventSink = true) :
    ((VideoPlayer.Dispose s e).1.m_valid = s.m_valid)
    ∧ ((VideoPlayer.Dispose s e).1.eventSink = s.eventSink)
    ∧ ((VideoPlayer.Dispose s e).1.eventChannel = false)
    ∧ ((VideoPlayer.Dispose s e).2 = if s.isInitialized then e.Pause else e)
    ∧ (VideoPlayer.OnPlaybackEnded (VideoPlayer.Dispose s e).1 = [Event.completed]) := by
  simp [VideoPlayer.Dispose, VideoPlayer.OnPlaybackEnded, hS]

/-- Witness for the amended C2 at a concrete attached session. -/
theorem C2_witness :
    ((VideoPlayer.Dispose { initPlayer with eventSink := true } eng0).1.m_valid
        = ({ initPlayer with eventSink := true } : PlayerState).m_valid)
    ∧ (VideoPlayer.OnPlaybackEnded
        (VideoPlayer.Dispose { initPlayer with eventSink := true } eng0).1
      = [Event.completed]) :=
  ⟨(C2_dispose_not_defensive { initPlayer with eventSink := true } eng0 (by decide)).1,
   (C2_dispose_not_defensive { initPlayer with eventSink := true } eng0
      (by decide)).2.2.2.2⟩

/-- C3 counterexample: before initialization, with a sink attached, a
`HAVE_NOTHING` buffering callback does emit a `bufferingStart` event. -/
theorem C3_counterexample :
    ({ initPlayer with eventSink := true } : PlayerState).isInitialized = false
    ∧ Event.bufferingStart ∈
        (VideoPlayer.OnMediaStateChange { initPlayer with eventSink := true } eng0
          BufferingState.HAVE_NOTHING).2 := by decide

/-- C3 amended: pre-initialization buffering callbacks do emit buffering
events when a sink is attached: a `HAVE_NOTHING` callback emits
`bufferingStart` followed by a `bufferingUpdate`, and a
non-`HAVE_NOTHING` callback emits the `initialized` event followed by
`bufferingEnd`. -/
theorem C3_pre_init_buffering_events (s : PlayerState) (e : EngineState)
    (hI : s.isInitialized = false) (hS : s.eventSink = true) :
    ((VideoPlayer.OnMediaStateChange s e BufferingState.HAVE_NOTHING).2
        = [Event.bufferingStart, Event.bufferingUpdate e.GetBufferedRanges])
    ∧ (∀ bs, bs ≠ BufferingState.HAVE_NOTHING →
        (VideoPlayer.OnMediaStateChange s e bs).2
          = [Event.initialized e.duration (toInt32 e.nativeWidth) (toInt32 e.nativeHeight),
             Event.bufferingEnd]) := by
  constructor
  · simp [VideoPlayer.OnMediaStateChange, VideoPlayer.SetBuffering,
      VideoPlayer.SendBufferingUpdate, hS]
  · intro bs hbs
    cases bs with
    | HAVE_NOTHING => exact absurd rfl hbs
    | HAVE_ENOUGH =>
        simp [VideoPlayer.OnMediaStateChange, VideoPlayer.SetBuffering,
          VideoPlayer.SendInitialized, hI, hS]

/-- Witness for the amended C3 at a concrete attached, uninitialized
session. -/
theorem C3_witness :
    (VideoPlayer.OnMediaStateChange { initPlayer with eventSink := true } eng0
        BufferingState.HAVE_NOTHING).2
      = [Event.bufferingStart, Event.bufferingUpdate eng0.GetBufferedRanges] :=
  (C3_pre_init_buffering_events { initPlayer with eventSink := true } eng0
      (by decide) (by decide)).1

/-- C4 counterexample: in the trace listen → onInitialized →
`HAVE_ENOUGH`, the session was never buffering (no `HAVE_NOTHING`
callback occurs in the trace), yet the non-`HAVE_NOTHING` callback emits
`bufferingEnd`. -/
theorem C4_counterexample :
    (SessionAction.cbStateChange BufferingState.HAVE_NOTHING ∉
        [SessionAction.listen, SessionAction.cbInitialized,
         SessionAction.cbStateChange BufferingState.HAVE_ENOUGH])
    ∧ Event.bufferingEnd ∈
        (run (initPlayer, eng0)
          [SessionAction.listen, SessionAction.cbInitialized,
           SessionAction.cbStateChange BufferingState.HAVE_ENOUGH]).2 := by decide

/-- C4 amended: after initialization, with a sink attached, every
`HAVE_NOTHING` callback emits exactly one `bufferingStart`, and every
non-`HAVE_NOTHING` callback emits exactly one `bufferingEnd`
unconditionally — regardless of whether the session was previously
buffering. -/
theorem C4_post_init_buffering_events (s : PlayerState) (e : EngineState)
    (hI : s.isInitialized = true) (hS : s.eventSink = true) :
    ((VideoPlayer.OnMediaStateChange s e BufferingState.HAVE_NOTHING).2.count
        Event.bufferingStart = 1)
    ∧ (∀ bs, bs ≠ BufferingState.HAVE_NOTHING →
        (VideoPlayer.OnMediaStateChange s e bs).2 = [Event.bufferingEnd]) := by
  constructor
  · simp [VideoPlayer.OnMediaStateChange, VideoPlayer.SetBuffering,
      VideoPlayer.SendBufferingUpdate, hS, List.count]
  · intro bs hbs
    cases bs with
    | HAVE_NOTHING => exact absurd rfl hbs
    | HAVE_ENOUGH =>
        simp [VideoPlayer.OnMediaStateChange, VideoPlayer.SetBuffering, hI, hS]

/-- Witness for the amended C4 at a concrete attached, initialized
session. -/
theorem C4_witness :
    (VideoPlayer.OnMediaStateChange
        { initPlayer with isInitialized := true, eventSink := true } eng0
        BufferingState.HAVE_ENOUGH).2 = [Event.bufferingEnd] :=
  (C4_post_init_buffering_events
      { initPlayer with isInitialized := true, eventSink := true } eng0
      (by decide) (by decide)).2 BufferingState.HAVE_ENOUGH (by decide)

/-- C5: a frame request sizes the surface descriptor to the requested
buffer dimensions; the engine state after the frame request (including
the window-update/resize arguments) is independent of the requested
buffer size; and when the window geometry is unavailable (no readable
rectangle and no previously stored size) the resize is invoked with the
default (640, 480). -/
theorem C5_descriptor_and_resize (s : PlayerState) (e : EngineState)
    (w h : Nat) (rect? : Option WinRect) :
    ((VideoPlayer.ObtainDescriptorCallback s e w h rect?).1.m_descriptor
        = (asUInt32 w, asUInt32 h))
    ∧ (∀ w' h' : Nat,
        (VideoPlayer.ObtainDescriptorCallback s e w' h' rect?).2
          = (VideoPlayer.ObtainDescriptorCallback s e w h rect?).2)
    ∧ (rect? = none → s.m_windowSize = (0, 0) →
        (VideoPlayer.ObtainDescriptorCallback s e w h rect?).2.windowUpdateArgs
          = some (640, 480)) := by
  refine ⟨?_, ?_, ?_⟩
  · cases rect? <;>
      simp [VideoPlayer.ObtainDescriptorCallback, VideoPlayer.UpdateVideoSize]
  · intro w' h'
    cases rect? <;>
      simp [VideoPlayer.ObtainDescriptorCallback, VideoPlayer.UpdateVideoSize]
  · rintro rfl hws
    simp [VideoPlayer.ObtainDescriptorCallback, VideoPlayer.UpdateVideoSize, hws,
      EngineState.OnWindowUpdate, intAsUInt32]

/-- Witness for C5: spec scenario 3 — a (1920, 1080) frame request with
no window geometry sizes the descriptor to the request and resizes the
engine with (640, 480). -/
theorem C5_witness :
    ((VideoPlayer.ObtainDescriptorCallback initPlayer eng0 1920 1080 none).1.m_descriptor
        = (asUInt32 1920, asUInt32 1080))
    ∧ ((VideoPlayer.ObtainDescriptorCallback initPlayer eng0 1920 1080 none).2.windowUpdateArgs
        = some (640, 480)) :=
  ⟨(C5_descriptor_and_resize initPlayer eng0 1920 1080 none).1,
   (C5_descriptor_and_resize initPlayer eng0 1920 1080 none).2.2 rfl (by decide)⟩

/-- C6: every `OnMediaInitialized` invocation seeks the engine to
position 0 unconditionally; on a repeat invocation (flag already set)
only the seek repeats — no event is emitted and the player state is
unchanged; on a first invocation the flag is set. -/
theorem C6_seek_zero_every_init (s : PlayerState) (e : EngineState) :
    ((VideoPlayer.OnMediaInitialized s e).1.2.mediaTime = 0)
    ∧ (s.isInitialized = true →
        (VideoPlayer.OnMediaInitialized s e).2 = []
        ∧ (VideoPlayer.OnMediaInitialized s e).1.1 = s)
    ∧ (s.isInitialized = false →
        (VideoPlayer.OnMediaInitialized s e).1.1.isInitialized = true) := by
  cases hI : s.isInitialized <;>
    simp [VideoPlayer.OnMediaInitialized, EngineState.SeekTo, hI]

/-- Witness for C6 at a concrete already-initialized session: the seek
still lands at 0 and no duplicate event is emitted. -/
theorem C6_witness :
    ((VideoPlayer.OnMediaInitialized { initPlayer with isInitialized := true }
        (EngineState.SeekTo eng0 777)).1.2.mediaTime = 0)
    ∧ ((VideoPlayer.OnMediaInitialized { initPlayer with isInitialized := true }
        (EngineState.SeekTo eng0 777)).2 = []) :=
  ⟨(C6_seek_zero_every_init { initPlayer with isInitialized := true }
      (EngineState.SeekTo eng0 777)).1,
   ((C6_seek_zero_every_init { initPlayer with isInitialized := true }
      (EngineState.SeekTo eng0 777)).2.1 (by decide)).1⟩

/-- C7: any `bufferingUpdate` event emitted by a buffering-state
callback carries exactly one pair per buffered range reported by the
engine, in the engine's reported order (it equals `GetBufferedRanges`);
and with a sink attached, every `HAVE_NOTHING` callback emits
`bufferingStart` followed by that `bufferingUpdate`. -/
theorem C7_bufferingUpdate_values (s : PlayerState) (e : EngineState)
    (bs : BufferingState) :
    (∀ vs, Event.bufferingUpdate vs ∈ (VideoPlayer.OnMediaStateChange s e bs).2 →
        vs = e.GetBufferedRanges)
    ∧ (s.eventSink = true →
        (VideoPlayer.OnMediaStateChange s e BufferingState.HAVE_NOTHING).2
          = [Event.bufferingStart, Event.bufferingUpdate e.GetBufferedRanges]) := by
  constructor
  · intro vs hvs
    cases bs <;> cases hI : s.isInitialized <;> cases hS : s.eventSink <;>
      simp [VideoPlayer.OnMediaStateChange, VideoPlayer.SetBuffering,
        VideoPlayer.SendBufferingUpdate, VideoPlayer.SendInitialized,
        hI, hS] at hvs <;> simp [hvs]
  · intro hS
    simp [VideoPlayer.OnMediaStateChange, VideoPlayer.SetBuffering,
      VideoPlayer.SendBufferingUpdate, hS]

/-- Witness for C7 at a concrete attached session and the engine
double's ranges. -/
theorem C7_witness :
    (([(0, 1000)] : List (Int × Int)) = eng0.GetBufferedRanges)
    ∧ ((VideoPlayer.OnMediaStateChange { initPlayer with eventSink := true } eng0
        BufferingState.HAVE_NOTHING).2
      = [Event.bufferingStart, Event.bufferingUpdate eng0.GetBufferedRanges]) :=
  ⟨(C7_bufferingUpdate_values { initPlayer with eventSink := true } eng0
      BufferingState.HAVE_NOTHING).1 [(0, 1000)] (by decide),
   (C7_bufferingUpdate_values { initPlayer with eventSink := true } eng0
      BufferingState.HAVE_NOTHING).2 (by decide)⟩

/-- C8: while the sink is detached every emission attempt is silently
dropped — all handlers emit nothing (and nothing is queued); and in the
concrete scenario detach → playback-ended → reattach → playback-ended,
nothing is delivered while detached and exactly one `completed` event
after reattaching. -/
theorem C8_detached_listener_drop (s : PlayerState) (e : EngineState)
    (hDetached : s.eventSink = false) :
    ((VideoPlayer.OnMediaInitialized s e).2 = [])
    ∧ (∀ bs, (VideoPlayer.OnMediaStateChange s e bs).2 = [])
    ∧ (VideoPlayer.OnPlaybackEnded s = [])
    ∧ (VideoPlayer.SendBufferingUpdate s e = [])
    ∧ (VideoPlayer.SendInitialized s e = [])
    ∧ (∀ b, VideoPlayer.SetBuffering s b = [])
    ∧ ((run (initPlayer, eng0)
        [SessionAction.listen, SessionAction.cancel, SessionAction.cbPlaybackEnded,
         SessionAction.listen, SessionAction.cbPlaybackEnded]).2
      = [Event.completed]) := by
  refine ⟨?_, ?_, ?_, ?_, ?_, ?_, by decide⟩
  · cases hI : s.isInitialized <;>
      simp [VideoPlayer.OnMediaInitialized, VideoPlayer.SendInitialized, hI, hDetached]
  · intro bs
    cases bs <;> cases hI : s.isInitialized <;>
      simp [VideoPlayer.OnMediaStateChange, VideoPlayer.SetBuffering,
        VideoPlayer.SendBufferingUpdate, VideoPlayer.SendInitialized, hI, hDetached]
  · simp [VideoPlayer.OnPlaybackEnded, hDetached]
  · simp [VideoPlayer.SendBufferingUpdate, hDetached]
  · cases hI : s.isInitialized <;> simp [VideoPlayer.SendInitialized, hI, hDetached]
  · intro b; simp [VideoPlayer.SetBuffering, hDetached]

/-- Witness for C8 at the fresh (detached) session. -/
theorem C8_witness :
    (VideoPlayer.OnPlaybackEnded initPlayer = [])
    ∧ ((run (initPlayer, eng0)
        [SessionAction.listen, SessionAction.cancel, SessionAction.cbPlaybackEnded,
         SessionAction.listen, SessionAction.cbPlaybackEnded]).2
      = [Event.completed]) :=
  ⟨(C8_detached_listener_drop initPlayer eng0 (by decide)).2.2.1,
   (C8_detached_listener_drop initPlayer eng0 (by decide)).2.2.2.2.2.2⟩

/-- C9 counterexample: with a previously stored window size of
(800, 600), a successful `GetWindowRect` returning a degenerate
rectangle (zero width) overwrites the stored size with (0, 500) instead
of keeping the prior value as the claim states. -/
theorem C9_counterexample :
    ((VideoPlayer.UpdateVideoSize { initPlayer with m_windowSize := (800, 600) } eng0
        (some { left := 10, top := 10, right := 10, bottom := 510 })).1.m_windowSize
      = (0, 500))
    ∧ ((0, 500) : Int × Int) ≠ (800, 600) := by decide

/-- C9 amended: on a geometry refresh, if the window rectangle is
readable the stored size is updated to its width/height even when
degenerate; only when the read fails is the prior value kept (degenerate
stored values fall back to (640, 480) at resize time); and no other
player state is changed by the refresh. -/
theorem C9_geometry_refresh (s : PlayerState) (e : EngineState)
    (rect? : Option WinRect) :
    (∀ r, rect? = some r →
        (VideoPlayer.UpdateVideoSize s e rect?).1.m_windowSize
          = (r.right - r.left, r.bottom - r.top))
    ∧ (rect? = none →
        (VideoPlayer.UpdateVideoSize s e rect?).1.m_windowSize = s.m_windowSize)
    ∧ ((VideoPlayer.UpdateVideoSize s e rect?).1.m_valid = s.m_valid)
    ∧ ((VideoPlayer.UpdateVideoSize s e rect?).1.isInitialized = s.isInitialized)
    ∧ ((VideoPlayer.UpdateVideoSize s e rect?).1.eventSink = s.eventSink)
    ∧ ((VideoPlayer.UpdateVideoSize s e rect?).1.eventChannel = s.eventChannel)
    ∧ ((VideoPlayer.UpdateVideoSize s e rect?).1.m_descriptor = s.m_descriptor) := by
  refine ⟨?_, ?_, ?_, ?_, ?_, ?_, ?_⟩ <;>
    first
    | (rintro r rfl; simp [VideoPlayer.UpdateVideoSize])
    | (rintro rfl; simp [VideoPlayer.UpdateVideoSize])
    | (cases rect? <;> simp [VideoPlayer.UpdateVideoSize])

/-- Witness for the amended C9: a successful read updates the stored
size; a failed read keeps it. -/
theorem C9_witness :
    ((VideoPlayer.UpdateVideoSize initPlayer eng0
        (some { left := 0, top := 0, right := 1024, bottom := 768 })).1.m_windowSize
      = ((1024 : Int) - 0, (768 : Int) - 0))
    ∧ ((VideoPlayer.UpdateVideoSize initPlayer eng0 none).1.m_windowSize
      = initPlayer.m_windowSize) :=
  ⟨(C9_geometry_refresh initPlayer eng0
      (some { left := 0, top := 0, right := 1024, bottom := 768 })).1
      { left := 0, top := 0, right := 1024, bottom := 768 } rfl,
   (C9_geometry_refresh initPlayer eng0 none).2.1 rfl⟩

/-- C10: `seekTo(T)` followed immediately by `getPosition()` returns
`T`: both are direct pass-throughs to the engine, modelled as a test
double whose `GetMediaTime` returns the last seek target. -/
theorem C10_seek_getPosition_roundtrip (e : EngineState) (T : Int) :
    VideoPlayer.GetPosition (VideoPlayer.SeekTo e T) = T := rfl
